import Mathlib

/-!
Shallow embedding of `src/montecarlo.py` (class `MonteCarloGBMSimulator`).

Python floats are modelled as real numbers.  The places where the Python
code would produce a NaN without raising (mean/std of an empty or singleton
series) are modelled by Lean's division-by-zero-equals-zero convention; no
theorem below asserts the numeric value produced in those degenerate cases,
only whether an exception is raised.  The numpy random source
(`np.random.randn`) is modelled by passing the matrix of standard-normal
draws as an explicit argument `z : ℕ → ℕ → ℝ`, matching the spec's
"pluggable random-number source".
-/

namespace MonteCarlo

/-- The input table handed to `MonteCarloGBMSimulator.__init__`: a pandas
DataFrame of which only the `pnl_pct` and `close` columns are consulted.
A `none` column is an absent column; inside `pnl_pct`, a `none` entry is a
missing value (NaN) that `dropna` removes.  Entries of `close` are prices. -/
structure DataFrame where
  pnl_pct : Option (List (Option ℝ))
  close : Option (List ℝ)

/-- Tail worker for `pctChange`: `prev` is the previous price. -/
noncomputable def pctChangeGo (prev : ℝ) : List ℝ → List (Option ℝ)
  | [] => []
  | q :: rest => some (q / prev - 1) :: pctChangeGo q rest

/-- Pandas `Series.pct_change()` on a price column: the first entry is
missing (NaN), entry `t` is `price[t]/price[t-1] - 1`. -/
noncomputable def pctChange : List ℝ → List (Option ℝ)
  | [] => []
  | p :: rest => none :: pctChangeGo p rest

/-- Pandas `Series.mean()` on an already-cleaned series: sum divided by
count (on the empty series Python yields NaN; here `0/0 = 0`, see header). -/
noncomputable def seriesMean (l : List ℝ) : ℝ := l.sum / l.length

/-- Pandas `Series.std()`, default `ddof = 1`: the sample standard
deviation with divisor `N - 1` (computed in float arithmetic, so the
divisor for a singleton is `0` and for the empty series `-1`). -/
noncomputable def seriesStd (l : List ℝ) : ℝ :=
  Real.sqrt ((l.map (fun x => (x - seriesMean l) ^ 2)).sum / ((l.length : ℝ) - 1))

/-- The only exception `__init__` can raise:
`ValueError("CSV must contain either 'pnl_pct' or 'close' column.")`. -/
inductive CalibError where
  | missingColumn
deriving DecidableEq

/-- A numpy 2-d array of shape `(rows, cols)`; entries outside the shape
are irrelevant junk. -/
structure Matrix2 where
  rows : ℕ
  cols : ℕ
  entry : ℕ → ℕ → ℝ

/-- The instance attributes set by `__init__` (the cleaned return series
itself is also stored by the Python code but never read again, so it is
not carried here). -/
structure SimulatorState where
  mu : ℝ
  sigma : ℝ
  initial_capital : ℝ
  n_days : Int
  n_simulations : Int
  simulated_paths : Option Matrix2

/-- Constructor `MonteCarloGBMSimulator.__init__`.  Returns the constructed
state together with the caller's table as it is after the call: the
assignment `df["pnl_pct"] = df["close"].pct_change()` mutates the caller's
DataFrame in place, so the returned table differs from the input when only
`close` was present.  No validation of `initial_capital`, `n_days`,
`n_simulations` or `volatility_multiplier` is performed by the source. -/
noncomputable def mkSimulator (df : DataFrame) (initial_capital : ℝ)
    (n_days n_simulations : Int) (volatility_multiplier : ℝ := 1) :
    Except CalibError (SimulatorState × DataFrame) :=
  let tbl : Except CalibError DataFrame :=
    match df.pnl_pct with
    | some _ => .ok df
    | none =>
      match df.close with
      | none => .error .missingColumn
      | some prices => .ok { df with pnl_pct := some (pctChange prices) }
  tbl.map (fun d =>
    let returns := (d.pnl_pct.getD []).filterMap id
    ({ mu := seriesMean returns
       sigma := seriesStd returns * volatility_multiplier
       initial_capital := initial_capital
       n_days := n_days
       n_simulations := n_simulations
       simulated_paths := none }, d))

/-- Numpy `np.cumsum` along the time axis, inclusive:
`cumsum f t = f 0 + ⋯ + f t`. -/
noncomputable def cumsum (f : ℕ → ℝ) : ℕ → ℝ
  | 0 => f 0
  | t + 1 => cumsum f t + f (t + 1)

/-- The only failure of `simulate()`:
`np.random.randn(T, N)` raises `ValueError` on a negative dimension. -/
inductive SimError where
  | negativeDimension
deriving DecidableEq

/-- Method `MonteCarloGBMSimulator.simulate`, with the standard-normal
draws `z` made explicit.  Mirrors the source line by line: `dt = 1`,
`drift = (mu - 0.5 sigma^2) dt`, `shock = sigma * z * sqrt dt`,
`log_returns = drift + shock`, `cumulative_returns = cumsum`,
`price_paths = initial_capital * exp cumulative_returns`; the result is
stored on the instance. -/
noncomputable def SimulatorState.simulate (self : SimulatorState) (z : ℕ → ℕ → ℝ) :
    Except SimError (Matrix2 × SimulatorState) :=
  if self.n_days < 0 ∨ self.n_simulations < 0 then
    .error .negativeDimension
  else
    let dt : ℝ := 1
    let drift := (self.mu - 0.5 * self.sigma ^ 2) * dt
    let log_returns : ℕ → ℕ → ℝ := fun t n => drift + self.sigma * z t n * Real.sqrt dt
    let cumulative_returns : ℕ → ℕ → ℝ := fun t n => cumsum (fun i => log_returns i n) t
    let price_paths : Matrix2 :=
      { rows := self.n_days.toNat
        cols := self.n_simulations.toNat
        entry := fun t n => self.initial_capital * Real.exp (cumulative_returns t n) }
    .ok (price_paths, { self with simulated_paths := some price_paths })

/-- The failures of `summary()`: the explicit
`ValueError("Run simulate() before summary().")` when no path matrix is
stored; `IndexError` from `self.simulated_paths[-1]` on a 0-row matrix;
`ValueError` from `final_vals.min()` (a zero-size reduction) when the
terminal row is empty. -/
inductive SummaryError where
  | notSimulated
  | indexOutOfBounds
  | emptyReduction
deriving DecidableEq

/-- The terminal row `final_vals = self.simulated_paths[-1]`. -/
def finalVals (m : Matrix2) : List ℝ :=
  (List.range m.cols).map fun n => m.entry (m.rows - 1) n

/-- Numpy `ndarray.min()` on a non-empty 1-d array. -/
noncomputable def npMin : List ℝ → ℝ
  | [] => 0
  | x :: xs => xs.foldl min x

/-- Numpy `ndarray.max()` on a non-empty 1-d array. -/
noncomputable def npMax : List ℝ → ℝ
  | [] => 0
  | x :: xs => xs.foldl max x

/-- Numpy `ndarray.mean()`: sum divided by size. -/
noncomputable def npMean (l : List ℝ) : ℝ := l.sum / l.length

/-- Numpy `ndarray.std()`, default `ddof = 0`: the population standard
deviation with divisor `N`. -/
noncomputable def npStd (l : List ℝ) : ℝ :=
  Real.sqrt ((l.map (fun x => (x - npMean l) ^ 2)).sum / l.length)

/-- Numpy `np.percentile(a, p)` with the default linear interpolation:
position `p/100 * (N-1)` between the bracketing order statistics. -/
noncomputable def npPercentile (l : List ℝ) (p : ℝ) : ℝ :=
  let sorted := l.mergeSort (fun a b => decide (a ≤ b))
  let pos := p / 100 * ((l.length : ℝ) - 1)
  let vlo := sorted.getD (⌊pos⌋).toNat 0
  let vhi := sorted.getD (⌈pos⌉).toNat 0
  vlo + (pos - (⌊pos⌋ : ℝ)) * (vhi - vlo)

/-- The six statistics `summary()` prints over the terminal row. -/
structure SummaryStats where
  min : ℝ
  max : ℝ
  mean : ℝ
  stddev : ℝ
  p5 : ℝ
  p80 : ℝ

/-- Method `MonteCarloGBMSimulator.summary`.  The method only reads the
instance, so the state it leaves behind is the input state, returned
unchanged on success.  (The banner print statements before the `None`
check are I/O and not modelled.) -/
noncomputable def SimulatorState.summary (self : SimulatorState) :
    Except SummaryError (SummaryStats × SimulatorState) :=
  match self.simulated_paths with
  | none => .error .notSimulated
  | some m =>
    if m.rows = 0 then .error .indexOutOfBounds
    else if m.cols = 0 then .error .emptyReduction
    else
      let fv := finalVals m
      .ok ({ min := npMin fv
             max := npMax fv
             mean := npMean fv
             stddev := npStd fv
             p5 := npPercentile fv 5
             p80 := npPercentile fv 80 }, self)

/-- The matrix that `simulate` builds when both dimensions are
non-negative (named here so that theorems can exhibit it). -/
noncomputable def pricePaths (s : SimulatorState) (z : ℕ → ℕ → ℝ) : Matrix2 :=
  { rows := s.n_days.toNat
    cols := s.n_simulations.toNat
    entry := fun t n =>
      s.initial_capital *
        Real.exp (cumsum (fun i => (s.mu - 0.5 * s.sigma ^ 2) * 1 + s.sigma * z i n * Real.sqrt 1) t) }

/-! ### Spec-side definitions

These follow the words of the specification, to be compared with the
definitions above that were translated from the source. -/

/-- Spec-side: the cleaned return series — "the 'pnl_pct' column, or
percentage change of 'close' when 'pnl_pct' is absent, with missing
values dropped" (empty when neither column exists). -/
noncomputable def cleanedSeries (df : DataFrame) : List ℝ :=
  match df.pnl_pct with
  | some col => col.filterMap id
  | none =>
    match df.close with
    | some prices => (pctChange prices).filterMap id
    | none => []

/-- Spec-side: the arithmetic mean of a series. -/
noncomputable def arithmeticMean (l : List ℝ) : ℝ := l.sum / l.length

/-- Spec-side: the sample standard deviation, divisor `N - 1`. -/
noncomputable def sampleStdSpec (l : List ℝ) : ℝ :=
  Real.sqrt ((l.map (fun x => (x - arithmeticMean l) ^ 2)).sum / ((l.length : ℝ) - 1))

/-- Spec-side: the population standard deviation, divisor `N`. -/
noncomputable def populationStdSpec (l : List ℝ) : ℝ :=
  Real.sqrt ((l.map (fun x => (x - arithmeticMean l) ^ 2)).sum / (l.length : ℝ))

/-! ### Helper lemmas -/

/-- Lemma: `cumsum` is the inclusive sum over `Finset.range (t+1)`. -/
theorem cumsum_eq_sum_range (f : ℕ → ℝ) (t : ℕ) :
    cumsum f t = ∑ i ∈ Finset.range (t + 1), f i := by
  induction t with
  | zero => simp [cumsum]
  | succ t ih => rw [cumsum, ih, ← Finset.sum_range_succ]

/-- Lemma: `simulate` succeeds on non-negative dimensions, returning
`pricePaths` and storing it on the instance. -/
theorem simulate_ok (s : SimulatorState) (z : ℕ → ℕ → ℝ)
    (hT : 0 ≤ s.n_days) (hN : 0 ≤ s.n_simulations) :
    s.simulate z = .ok (pricePaths s z, { s with simulated_paths := some (pricePaths s z) }) := by
  have hcond : ¬(s.n_days < 0 ∨ s.n_simulations < 0) := by omega
  unfold SimulatorState.simulate
  rw [if_neg hcond]
  rfl

/-- Characterization of `mkSimulator` by cases on which columns exist. -/
theorem mkSimulator_eq (df : DataFrame) (C0 : ℝ) (T N : Int) (mult : ℝ) :
    mkSimulator df C0 T N mult =
      match df.pnl_pct, df.close with
      | some col, _ =>
          .ok ({ mu := seriesMean (col.filterMap id)
                 sigma := seriesStd (col.filterMap id) * mult
                 initial_capital := C0, n_days := T, n_simulations := N
                 simulated_paths := none }, df)
      | none, some prices =>
          .ok ({ mu := seriesMean ((pctChange prices).filterMap id)
                 sigma := seriesStd ((pctChange prices).filterMap id) * mult
                 initial_capital := C0, n_days := T, n_simulations := N
                 simulated_paths := none }, { df with pnl_pct := some (pctChange prices) })
      | none, none => .error .missingColumn := by
  rcases df with ⟨p, c⟩
  cases p <;> cases c <;> rfl

/-- Lemma: with zero volatility every cell of the path matrix is
`C0 * exp(mu*(t+1))`. -/
theorem pricePaths_entry_sigma_zero (s : SimulatorState) (hs : s.sigma = 0)
    (z : ℕ → ℕ → ℝ) (t n : ℕ) :
    (pricePaths s z).entry t n = s.initial_capital * Real.exp (s.mu * (t + 1)) := by
  show s.initial_capital * Real.exp (cumsum _ t) = _
  rw [cumsum_eq_sum_range]
  congr 2
  have hterm : ∀ i ∈ Finset.range (t + 1),
      (s.mu - 0.5 * s.sigma ^ 2) * 1 + s.sigma * z i n * Real.sqrt 1 = s.mu := by
    intro _ _
    rw [hs]
    ring
  rw [Finset.sum_congr rfl hterm, Finset.sum_const, Finset.card_range, nsmul_eq_mul]
  push_cast
  ring

/-- Lemma: with zero volatility the path matrix does not depend on the
draws. -/
theorem pricePaths_sigma_zero_indep (s : SimulatorState) (hs : s.sigma = 0)
    (z z' : ℕ → ℕ → ℝ) : pricePaths s z = pricePaths s z' := by
  unfold pricePaths
  congr 1
  funext t n
  congr 1
  rw [cumsum_eq_sum_range, cumsum_eq_sum_range]
  exact congrArg Real.exp (Finset.sum_congr rfl (fun i _ => by rw [hs]; ring))

/-- Lemma: `summary` on a stored non-degenerate matrix returns the six
statistics and leaves the state unchanged. -/
theorem summary_ok (s : SimulatorState) (m : Matrix2) (h : s.simulated_paths = some m)
    (hr : m.rows ≠ 0) (hc : m.cols ≠ 0) :
    s.summary = .ok ({ min := npMin (finalVals m), max := npMax (finalVals m),
                       mean := npMean (finalVals m), stddev := npStd (finalVals m),
                       p5 := npPercentile (finalVals m) 5,
                       p80 := npPercentile (finalVals m) 80 }, s) := by
  unfold SimulatorState.summary
  rw [h]
  dsimp only
  rw [if_neg hr, if_neg hc]

/-! ### Claims -/

/-- C1: for every configuration with `T ≥ 1` time steps and `N ≥ 1` paths
and any matrix `z` of draws, `simulate()` returns a matrix of shape
`(T, N)` (storing it on the instance) whose cell `[t, n]` equals
`C0 * exp(∑ i ≤ t, ((mu - 0.5 sigma²) + sigma * z[i,n]))`: the drift
correction is applied per step, the cumulative log-return is an inclusive
prefix sum along the time axis independently per path, and the path value
is `C0` times its exponential. -/
theorem simulate_cell_formula (s : SimulatorState) (z : ℕ → ℕ → ℝ)
    (hT : 1 ≤ s.n_days) (hN : 1 ≤ s.n_simulations) :
    ∃ m s', s.simulate z = .ok (m, s') ∧
      m.rows = s.n_days.toNat ∧ m.cols = s.n_simulations.toNat ∧
      s' = { s with simulated_paths := some m } ∧
      ∀ t < m.rows, ∀ n < m.cols,
        m.entry t n = s.initial_capital *
          Real.exp (∑ i ∈ Finset.range (t + 1),
            ((s.mu - 0.5 * s.sigma ^ 2) + s.sigma * z i n)) := by
  refine ⟨pricePaths s z, _, simulate_ok s z (by omega) (by omega), rfl, rfl, rfl, ?_⟩
  intro t ht n hn
  show s.initial_capital * Real.exp (cumsum _ t) = _
  rw [cumsum_eq_sum_range]
  congr 2
  apply Finset.sum_congr rfl
  intro _ _
  rw [Real.sqrt_one]
  ring

/-- Witness for C1 at `mu = 0`, `sigma = 1`, `C0 = 100`, `T = 2`, `N = 3`,
all draws `0`. -/
theorem simulate_cell_formula_witness :
    ∃ m s', (⟨0, 1, 100, 2, 3, none⟩ : SimulatorState).simulate (fun _ _ => 0) = .ok (m, s') ∧
      m.rows = (2 : Int).toNat ∧ m.cols = (3 : Int).toNat ∧
      s' = { (⟨0, 1, 100, 2, 3, none⟩ : SimulatorState) with simulated_paths := some m } ∧
      ∀ t < m.rows, ∀ n < m.cols,
        m.entry t n = (100 : ℝ) *
          Real.exp (∑ _i ∈ Finset.range (t + 1), (((0 : ℝ) - 0.5 * 1 ^ 2) + 1 * 0)) :=
  simulate_cell_formula ⟨0, 1, 100, 2, 3, none⟩ (fun _ _ => 0) (by decide) (by decide)

/-- C2: with `sigma = 0` the simulation is deterministic — one matrix is
produced whatever the draws are — and every cell `[t, n]` equals
`C0 * exp(mu * (t+1))`. -/
theorem simulate_sigma_zero_deterministic (s : SimulatorState)
    (hs : s.sigma = 0) (hT : 1 ≤ s.n_days) (hN : 1 ≤ s.n_simulations) :
    ∃ m s', (∀ z, s.simulate z = .ok (m, s')) ∧
      ∀ t < m.rows, ∀ n < m.cols,
        m.entry t n = s.initial_capital * Real.exp (s.mu * (t + 1)) := by
  refine ⟨pricePaths s (fun _ _ => 0),
    { s with simulated_paths := some (pricePaths s (fun _ _ => 0)) }, fun z => ?_,
    fun t _ n _ => pricePaths_entry_sigma_zero s hs _ t n⟩
  rw [simulate_ok s z (by omega) (by omega),
    pricePaths_sigma_zero_indep s hs z (fun _ _ => 0)]

/-- Witness for C2 at `mu = 0.02`, `sigma = 0`, `C0 = 500`, `T = 3`,
`N = 2`. -/
theorem simulate_sigma_zero_deterministic_witness :
    ∃ m s', (∀ z, (⟨0.02, 0, 500, 3, 2, none⟩ : SimulatorState).simulate z = .ok (m, s')) ∧
      ∀ t < m.rows, ∀ n < m.cols,
        m.entry t n = (500 : ℝ) * Real.exp ((0.02 : ℝ) * (t + 1)) :=
  simulate_sigma_zero_deterministic ⟨0.02, 0, 500, 3, 2, none⟩ rfl (by decide) (by decide)

/-- C3: whenever the cleaned return series is non-empty, calibration
succeeds with `mu` the arithmetic mean of the cleaned series and `sigma`
the sample standard deviation (divisor `N - 1`) of the cleaned series
times the volatility multiplier. -/
theorem calibration_mean_std (df : DataFrame) (C0 : ℝ) (T N : Int) (mult : ℝ)
    (h : cleanedSeries df ≠ []) :
    ∃ s tbl, mkSimulator df C0 T N mult = .ok (s, tbl) ∧
      s.mu = arithmeticMean (cleanedSeries df) ∧
      s.sigma = sampleStdSpec (cleanedSeries df) * mult := by
  rcases df with ⟨p, c⟩
  cases p with
  | some col => exact ⟨_, _, mkSimulator_eq ⟨some col, c⟩ C0 T N mult, rfl, rfl⟩
  | none =>
    cases c with
    | some prices => exact ⟨_, _, mkSimulator_eq ⟨none, some prices⟩ C0 T N mult, rfl, rfl⟩
    | none => exact absurd rfl h

/-- Witness for C3 on the returns column `[0.01, NaN, 0.03]` with
multiplier `2`. -/
theorem calibration_mean_std_witness :
    ∃ s tbl, mkSimulator ⟨some [some 0.01, none, some 0.03], none⟩ 1000 10 5 2 = .ok (s, tbl) ∧
      s.mu = arithmeticMean (cleanedSeries ⟨some [some 0.01, none, some 0.03], none⟩) ∧
      s.sigma = sampleStdSpec (cleanedSeries ⟨some [some 0.01, none, some 0.03], none⟩) * 2 :=
  calibration_mean_std ⟨some [some 0.01, none, some 0.03], none⟩ 1000 10 5 2
    (by simp [cleanedSeries])

/-- C4 (amended): calibration raises `ValueError` if and only if neither a
`pnl_pct` nor a `close` column is present; an empty cleaned series or a
price series with fewer than 2 points does not raise (the parameters
silently become NaN). -/
theorem calibration_error_iff_missing_columns (df : DataFrame) (C0 : ℝ) (T N : Int) (mult : ℝ) :
    (mkSimulator df C0 T N mult).isOk = false ↔ (df.pnl_pct = none ∧ df.close = none) := by
  rcases df with ⟨p, c⟩
  cases p <;> cases c <;> simp [mkSimulator_eq, Except.isOk, Except.toBool]

/-- Counterexample to C4 as stated: a present but empty `pnl_pct` column
gives an empty cleaned series, yet construction succeeds instead of
raising `InvalidInputError`. -/
theorem calibration_empty_series_no_error :
    (mkSimulator ⟨some [], none⟩ 1000 10 5 1).isOk = true := rfl

/-- C5 (amended): calibration returns the caller's table unchanged when a
`pnl_pct` column is already present (and touches nothing when it errors),
but when only a `close` column is present it mutates the caller's table in
place by storing the derived `pnl_pct = close.pct_change()` column. -/
theorem calibration_table_mutation (df : DataFrame) (C0 : ℝ) (T N : Int) (mult : ℝ) :
    (mkSimulator df C0 T N mult).toOption.map (fun r => r.2) =
      match df.pnl_pct, df.close with
      | some _, _ => some df
      | none, some prices => some { df with pnl_pct := some (pctChange prices) }
      | none, none => none := by
  rcases df with ⟨p, c⟩
  cases p <;> cases c <;> rfl

/-- Counterexample to C5 as stated: calibrating a table that has `close`
but no `pnl_pct` hands back a table that now has a `pnl_pct` column — the
caller-supplied table was modified. -/
theorem calibration_mutates_close_only_table :
    ((mkSimulator ⟨none, some [100, 101, 99]⟩ 1000 10 5 1).toOption.map
        (fun r => r.2.pnl_pct.isSome)) = some true ∧
      (⟨none, some [100, 101, 99]⟩ : DataFrame).pnl_pct.isSome = false := ⟨rfl, rfl⟩

/-- C6 (amended): the constructor performs no validation of the
configuration at all — it succeeds for arbitrary (also non-positive)
capital, time steps, path counts and negative multipliers, whenever a
usable column exists. -/
theorem constructor_no_validation (df : DataFrame) (C0 : ℝ) (T N : Int) (mult : ℝ)
    (h : df.pnl_pct.isSome = true ∨ df.close.isSome = true) :
    (mkSimulator df C0 T N mult).isOk = true := by
  rcases df with ⟨p, c⟩
  cases p <;> cases c <;> simp_all [mkSimulator_eq, Except.isOk, Except.toBool]

/-- Witness for C6 (amended) on a one-entry returns column. -/
theorem constructor_no_validation_witness :
    (mkSimulator ⟨some [some 0.05], none⟩ 500 7 2 3).isOk = true :=
  constructor_no_validation ⟨some [some 0.05], none⟩ 500 7 2 3 (Or.inl rfl)

/-- Counterexample to C6 as stated: constructing with `C0 = 0`,
`T = -5`, `N = 0` and multiplier `-1` — all four violations at once —
succeeds instead of raising `InvalidConfigurationError`. -/
theorem constructor_accepts_invalid_config :
    (mkSimulator ⟨some [some 0.01], none⟩ 0 (-5) 0 (-1)).isOk = true := rfl

/-- C7 (amended): `simulate()` fails if and only if `T < 0` or `N < 0`
(numpy rejects negative dimensions); for all `T ≥ 0` and `N ≥ 0` it
completes and returns a matrix of shape `(T, N)` of real (hence finite)
values — in particular `T = 0` completes rather than failing. -/
theorem simulate_error_iff_negative_dims (s : SimulatorState) (z : ℕ → ℕ → ℝ) :
    ((s.simulate z).isOk = false ↔ (s.n_days < 0 ∨ s.n_simulations < 0)) ∧
      (0 ≤ s.n_days → 0 ≤ s.n_simulations →
        ∃ m s', s.simulate z = .ok (m, s') ∧
          m.rows = s.n_days.toNat ∧ m.cols = s.n_simulations.toNat) := by
  by_cases hcond : s.n_days < 0 ∨ s.n_simulations < 0
  · constructor
    · rw [show s.simulate z = .error .negativeDimension by
        unfold SimulatorState.simulate; rw [if_pos hcond]]
      exact iff_of_true rfl hcond
    · intro h1 h2
      omega
  · constructor
    · rw [simulate_ok s z (by omega) (by omega)]
      exact iff_of_false (by simp [Except.isOk, Except.toBool]) hcond
    · intro _ _
      exact ⟨_, _, simulate_ok s z (by omega) (by omega), rfl, rfl⟩

/-- Witness for C7 (amended) at `T = 4`, `N = 6`. -/
theorem simulate_error_iff_negative_dims_witness :
    ((((⟨0, 1, 50, 4, 6, none⟩ : SimulatorState).simulate (fun _ _ => 1)).isOk = false ↔
        ((4 : Int) < 0 ∨ (6 : Int) < 0)) ∧
      ((0 : Int) ≤ 4 → (0 : Int) ≤ 6 →
        ∃ m s', (⟨0, 1, 50, 4, 6, none⟩ : SimulatorState).simulate (fun _ _ => 1) = .ok (m, s') ∧
          m.rows = (4 : Int).toNat ∧ m.cols = (6 : Int).toNat)) :=
  simulate_error_iff_negative_dims ⟨0, 1, 50, 4, 6, none⟩ (fun _ _ => 1)

/-- Counterexample to C7 as stated: with `T = 0` (`T < 1`) the claim
predicts a failure, but `simulate()` succeeds, returning an empty
`(0, 3)` matrix. -/
theorem simulate_succeeds_zero_days :
    ((⟨0, 0, 1000, 0, 3, none⟩ : SimulatorState).simulate (fun _ _ => 0)).isOk = true := by
  rw [simulate_ok _ _ (by decide) (by decide)]
  rfl

/-- C8 (amended): `summary()` raises its `NotSimulatedError` (the explicit
`ValueError`) exactly when no path matrix is stored; after a successful
`simulate()` whose stored matrix has at least one row and one column,
`summary()` succeeds and leaves the instance state unchanged.  (On a
stored degenerate matrix — zero rows or zero columns — `summary()` still
fails, with an `IndexError` or a zero-size-reduction `ValueError`.) -/
theorem summary_error_behavior (s : SimulatorState) :
    ((s.summary = .error .notSimulated) ↔ s.simulated_paths = none) ∧
      (∀ m, s.simulated_paths = some m → 0 < m.rows → 0 < m.cols →
        ∃ st, s.summary = .ok (st, s)) := by
  cases h : s.simulated_paths with
  | none =>
    refine ⟨iff_of_true ?_ rfl, ?_⟩
    · unfold SimulatorState.summary
      rw [h]
    · intro m hm
      exact Option.noConfusion hm
  | some m =>
    constructor
    · refine iff_of_false ?_ (by simp [h])
      unfold SimulatorState.summary
      rw [h]
      dsimp only
      split_ifs <;> simp
    · intro m' hm' hr hc
      injection hm' with hmm
      subst hmm
      exact ⟨_, summary_ok s m h (by omega) (by omega)⟩

/-- Witness for C8 (amended) on a stored `1 × 1` matrix. -/
theorem summary_error_behavior_witness :
    ∃ st, (⟨0, 0, 100, 1, 1, some ⟨1, 1, fun _ _ => 7⟩⟩ : SimulatorState).summary =
      .ok (st, ⟨0, 0, 100, 1, 1, some ⟨1, 1, fun _ _ => 7⟩⟩) :=
  (summary_error_behavior ⟨0, 0, 100, 1, 1, some ⟨1, 1, fun _ _ => 7⟩⟩).2
    ⟨1, 1, fun _ _ => 7⟩ rfl (by decide) (by decide)

/-- Counterexample to C8 as stated: with `T = 1`, `N = 0`, `simulate()`
succeeds and stores a `(1, 0)` path matrix, yet the following `summary()`
raises (numpy's zero-size reduction `ValueError` on `final_vals.min()`) —
so "after a successful simulate(), summary() does not raise" is false. -/
theorem summary_raises_after_degenerate_simulate :
    ∃ m s', (⟨0, 0, 1000, 1, 0, none⟩ : SimulatorState).simulate (fun _ _ => 0) = .ok (m, s') ∧
      s'.summary = .error .emptyReduction :=
  ⟨_, _, simulate_ok _ _ (by decide) (by decide), rfl⟩

/-- C9: the standard deviation `summary()` reports over the terminal row
is the population standard deviation with divisor `N` (numpy's default
`ddof = 0`), and not the sample standard deviation with divisor `N - 1`:
on the terminal row `[0, 2]` the two differ (`1` versus `√2`). -/
theorem summary_std_population :
    (∀ (s : SimulatorState) (m : Matrix2), s.simulated_paths = some m →
        0 < m.rows → 0 < m.cols →
        ∃ st, s.summary = .ok (st, s) ∧ st.stddev = populationStdSpec (finalVals m)) ∧
      populationStdSpec [0, 2] = 1 ∧ sampleStdSpec [0, 2] ≠ 1 := by
  refine ⟨?_, ?_, ?_⟩
  · intro s m hm hr hc
    exact ⟨_, summary_ok s m hm (by omega) (by omega), rfl⟩
  · norm_num [populationStdSpec, arithmeticMean, Real.sqrt_eq_one]
  · have h2 : sampleStdSpec [0, 2] = Real.sqrt 2 := by
      norm_num [sampleStdSpec, arithmeticMean]
    rw [h2]
    intro heq
    have hsq := Real.sq_sqrt (by norm_num : (0:ℝ) ≤ 2)
    rw [heq] at hsq
    norm_num at hsq

/-- Witness for C9 on a stored `1 × 2` matrix with terminal row `[0, 2]`. -/
theorem summary_std_population_witness :
    ∃ st, (⟨0, 0, 1, 1, 2, some ⟨1, 2, fun _ n => if n = 0 then 0 else 2⟩⟩ :
        SimulatorState).summary =
        .ok (st, ⟨0, 0, 1, 1, 2, some ⟨1, 2, fun _ n => if n = 0 then 0 else 2⟩⟩) ∧
      st.stddev = populationStdSpec (finalVals ⟨1, 2, fun _ n => if n = 0 then 0 else 2⟩) :=
  summary_std_population.1 ⟨0, 0, 1, 1, 2, some ⟨1, 2, fun _ n => if n = 0 then 0 else 2⟩⟩
    ⟨1, 2, fun _ n => if n = 0 then 0 else 2⟩ rfl (by decide) (by decide)

/-- C10: when a `pnl_pct` column is present, calibration uses it as the
return series and never consults the `close` column: the calibrated
`(mu, sigma)` are the same for any two values of the `close` column, and
equal the mean and scaled sample standard deviation of the dropna-cleaned
`pnl_pct` column. -/
theorem calibration_ignores_close_when_pnl_present (col : List (Option ℝ))
    (c1 c2 : Option (List ℝ)) (C0 : ℝ) (T N : Int) (mult : ℝ) :
    (mkSimulator ⟨some col, c1⟩ C0 T N mult).toOption.map (fun r => (r.1.mu, r.1.sigma)) =
        (mkSimulator ⟨some col, c2⟩ C0 T N mult).toOption.map (fun r => (r.1.mu, r.1.sigma)) ∧
      (mkSimulator ⟨some col, c1⟩ C0 T N mult).toOption.map (fun r => (r.1.mu, r.1.sigma)) =
        some (seriesMean (col.filterMap id), seriesStd (col.filterMap id) * mult) := ⟨rfl, rfl⟩

end MonteCarlo
